import Mathlib

/-!
Shallow embedding of the CDAP UI gateway server (`makeApp` and its helpers):
configuration lookup, the proxy-mode header sanitizer, the hub content
forwarding handlers, the security-header (CSP / HSTS) construction, session
token gating and issuance, the shared mutable app state touched by request
handlers, and the static-asset routing, together with theorems about them.

JS objects holding string values are modelled as association lists with
exact-key lookup; a missing key (JS `undefined`) is `Option.none`, and where
the source interpolates or indexes with an undefined value the string
"undefined" appears, as it does in JS. Fallible operations return `Except`.
-/

namespace CdapUi

/-- A merged runtime configuration (`cdapConfig`): a flat key-value map of
string-valued settings, read via JS property access. -/
abbrev Config := List (String × String)

/-- An HTTP header map as a JS object: exact (case-sensitive) string keys. -/
abbrev Headers := List (String × String)

/-- JS property read `obj[key]`: the value, or none when the key is absent. -/
def cfgGet (cfg : Config) (key : String) : Option String :=
  (cfg.find? (fun p => p.1 == key)).map (fun p => p.2)

/-- Header read `headers[key]` (same exact-key semantics as `cfgGet`). -/
def hdrGet (hs : Headers) (key : String) : Option String :=
  (hs.find? (fun p => p.1 == key)).map (fun p => p.2)

/-- JS `delete obj[key]`: every binding of exactly that key is removed. -/
def hdrDelete (hs : Headers) (key : String) : Headers :=
  hs.filter (fun p => p.1 != key)

/-- The key used by `delete res.headers[cdapConfig['security.authentication.proxy.user.identity.header']]`:
when the config key is absent, JS indexes with `undefined`, which coerces to
the property name "undefined". -/
def identityHeaderKey (cfg : Config) : String :=
  (cfgGet cfg "security.authentication.proxy.user.identity.header").getD "undefined"

/-- `stripAuthHeadersInProxyMode` (src lines 141-147): when the configured
authentication mode is PROXY, deletes the `Authorization` key and the
configured proxy-identity key from the given response headers; otherwise the
headers are returned unchanged. The source's `typeof res.headers === 'object'`
guard holds at every modelled call site (a headers object is always present). -/
def stripAuthHeadersInProxyMode (cfg : Config) (hs : Headers) : Headers :=
  if cfgGet cfg "security.authentication.mode" = some "PROXY" then
    hdrDelete (hdrDelete hs "Authorization") (identityHeaderKey cfg)
  else hs

/-- Scheme characters permitted in a URL scheme (RFC 3986 / Node url.parse). -/
def isSchemeChar (c : Char) : Bool :=
  c.isAlphanum || c == '+' || c == '-' || c == '.'

/-- Splits a character list at the first `://`, returning the part before it
(reversed accumulator unwound) and the part after it. -/
def splitSchemeSep (acc : List Char) : List Char → Option (List Char × List Char)
  | [] => none
  | ':' :: '/' :: '/' :: rest => some (acc.reverse, rest)
  | c :: rest => splitSchemeSep (c :: acc) rest

/-- Model of Node's legacy `url.parse` restricted to the two fields the server
reads: `(protocol, host)`. A string of the shape `scheme://host...` yields
`(some "scheme:", some host)` (both lowercased, host cut at `/`, `?` or `#`);
any string without a well-formed `scheme://` prefix parses to `(none, none)`
(Node returns an object with `protocol: null, host: null` instead of
throwing). -/
def urlProtocolHost (s : String) : Option String × Option String :=
  match splitSchemeSep [] s.toList with
  | none => (none, none)
  | some (scheme, rest) =>
    if scheme ≠ [] ∧ scheme.all isSchemeChar then
      let host := rest.takeWhile (fun c => c ≠ '/' ∧ c ≠ '?' ∧ c ≠ '#')
      (some (String.mk (scheme.map Char.toLower) ++ ":"),
       some (String.mk (host.map Char.toLower)))
    else (none, none)

/-- JS `String.prototype.split(',')` over a character list. -/
def splitCommaChars (acc : List Char) : List Char → List String
  | [] => [String.mk acc.reverse]
  | ',' :: rest => String.mk acc.reverse :: splitCommaChars [] rest
  | c :: rest => splitCommaChars (c :: acc) rest

/-- Modelled from the spec: `getMarketUrls` lives in `server/url-helper`, which
is not under `src/`. Per the spec the Config Source supplies "hub allow-list
URLs" inside the flat key-value map; we model them as the comma-separated
value of the `market.base.urls` key. -/
def getMarketUrls (cfg : Config) : List String :=
  match cfgGet cfg "market.base.urls" with
  | none => []
  | some s => splitCommaChars [] s.toList

/-- Modelled from the spec: `isVerifiedMarketHost` lives in `server/url-helper`,
not under `src/`. Spec: "an incoming source URL is forwarded only if its
scheme+host matches a member of this set exactly"; "allow-listing must be
host-exact (scheme+host), not prefix/substring". A missing source URL
(JS `undefined`) is not verified. -/
def isVerifiedMarketHost (cfg : Config) (sourceLink : Option String) : Bool :=
  match sourceLink with
  | none => false
  | some s =>
    match urlProtocolHost s with
    | (some proto, some host) =>
      (getMarketUrls cfg).any (fun m =>
        match urlProtocolHost m with
        | (some mp, some mh) => mp == proto && mh == host
        | _ => false)
    | _ => false

/-- Backend base URL, as assembled in the `/backendstatus` handler (src lines
673-690): protocol and port follow the external TLS flag, the address comes
from config. -/
def backendBaseUrl (cfg : Config) : String :=
  let isSecure := cfgGet cfg "ssl.external.enabled" = some "true"
  let protocol := if isSecure then "https://" else "http://"
  let port := if isSecure then cfgGet cfg "router.ssl.server.port"
              else cfgGet cfg "router.server.port"
  protocol ++ (cfgGet cfg "router.server.address").getD "undefined"
    ++ ":" ++ port.getD "undefined"

/-- Request origin marker for hub/market URLs (`REQUEST_ORIGIN_MARKET`). -/
def REQUEST_ORIGIN_MARKET : String := "MARKET"

/-- Modelled from the spec: `constructUrl` lives in `server/url-helper`, not
under `src/`. Spec: "target URL is always constructed by the Forwarder from a
relative path plus a config-trusted base — it is never taken verbatim from
client input except for the Hub Content Forwarder's explicitly allow-listed
case". A market-origin URL (already allow-list-verified) is used as supplied;
otherwise the config-derived backend base is prepended to the relative path. -/
def constructUrl (cfg : Config) (link : String) (origin : String) : String :=
  if origin = REQUEST_ORIGIN_MARKET then link
  else backendBaseUrl cfg ++ link

/-- One outbound network request issued by the server (the `request(...)`
calls): method, absolute URL and the headers sent upstream. -/
structure NetCall where
  method : String
  url : String
  reqHeaders : Headers
deriving DecidableEq

/-- An upstream response as the `request` library delivers it. -/
structure UpstreamResponse where
  status : Nat
  headers : Headers
  body : String
deriving DecidableEq

/-- The network as an oracle: what the upstream would answer to each call. -/
abbrev Network := NetCall → UpstreamResponse

/-- What a handler produces for one request: the client-visible status and
body, the headers the handler set on the client response (`res.set`), and the
outbound network calls it issued, in order. -/
structure Outcome where
  status : Nat
  body : String
  resHeaders : Headers
  calls : List NetCall
deriving DecidableEq

/-- The `server/token` validator as the handlers import it:
`validateToken(sessionTokenHeader, cdapConfig, log, authToken)`, with the
logger argument dropped and the possibly-undefined auth header as an Option. -/
abbrev ValidateTokenFn := String → Config → Option String → Bool

/-- The session gate repeated verbatim in the `/forwardMarketToCdap`,
`POST /namespaces/...` and `/updateTheme` handlers:
`!req.headers['session-token'] || (req.headers['session-token'] && !validateToken(...))`.
The gate passes only when the header is present, non-empty (JS truthiness) and
validates against the config and the `authorization` header. -/
def sessionGatePasses (validateToken : ValidateTokenFn) (cfg : Config)
    (reqHeaders : Headers) : Bool :=
  match hdrGet reqHeaders "session-token" with
  | none => false
  | some st => st != "" && validateToken st cfg (hdrGet reqHeaders "authorization")

/-- The query parameters and headers of a `/forwardMarketToCdap` request. -/
structure ForwardMarketReq where
  source : Option String
  target : Option String
  sourceMethod : Option String
  targetMethod : Option String
  headers : Headers
deriving DecidableEq

/-- The `/forwardMarketToCdap` handler (src lines 375-416): session gate, then
allow-list check, then the source fetch piped into the target request; the
backend response's headers pass through the sanitizer before `res.set`. -/
def forwardMarketToCdapHandler (validateToken : ValidateTokenFn) (net : Network)
    (cfg : Config) (req : ForwardMarketReq) : Outcome :=
  let sourceMethod := req.sourceMethod.getD "GET"
  let targetMethod := req.targetMethod.getD "POST"
  if sessionGatePasses validateToken cfg req.headers = false then
    { status := 500, body := "Unable to validate session", resHeaders := [], calls := [] }
  else if isVerifiedMarketHost cfg req.source = false then
    { status := 403, body := "Invalid source link", resHeaders := [], calls := [] }
  else
    let sourceLink := constructUrl cfg (req.source.getD "undefined") REQUEST_ORIGIN_MARKET
    let targetLink := constructUrl cfg (req.target.getD "undefined") ""
    let sourceCall : NetCall := ⟨sourceMethod, sourceLink, []⟩
    let targetCall : NetCall := ⟨targetMethod, targetLink, req.headers⟩
    let resFromBackend := net targetCall
    { status := resFromBackend.status
      body := resFromBackend.body
      resHeaders := stripAuthHeadersInProxyMode cfg resFromBackend.headers
      calls := [sourceCall, targetCall] }

/-- The `/market` handler (src lines 425-457): the allow-list check is the
first thing done; on mismatch a 403 with "invalid market request" and no
network call, on match a single GET whose status and body are relayed
verbatim. -/
def marketHandler (net : Network) (cfg : Config) (source : Option String) : Outcome :=
  if isVerifiedMarketHost cfg source = false then
    { status := 403, body := "invalid market request", resHeaders := [], calls := [] }
  else
    let call : NetCall := ⟨"GET", source.getD "undefined", []⟩
    let marketResponse := net call
    { status := marketResponse.status
      body := marketResponse.body
      resHeaders := []
      calls := [call] }

/-- A `POST /namespaces/:namespace/:path(*)` request: the two route
parameters, the request headers and the streamed body. -/
structure NamespacesUploadReq where
  nsParam : String
  pathParam : String
  headers : Headers
  body : String
deriving DecidableEq

/-- The `POST /namespaces/:namespace/:path(*)` handler (src lines 543-582):
session gate, then the body is piped to a backend POST whose URL is built from
the route parameters; the backend response's headers pass through the
sanitizer before `res.set`. -/
def namespacesUploadHandler (validateToken : ValidateTokenFn) (net : Network)
    (cfg : Config) (req : NamespacesUploadReq) : Outcome :=
  if sessionGatePasses validateToken cfg req.headers = false then
    { status := 500, body := "Unable to validate session", resHeaders := [], calls := [] }
  else
    let constructedPath := "/v3/namespaces/" ++ req.nsParam ++ "/" ++ req.pathParam
    let call : NetCall :=
      ⟨"POST", constructUrl cfg constructedPath "",
        [("Content-Type", (hdrGet req.headers "content-type").getD "undefined")]⟩
    let newRes := net call
    { status := newRes.status
      body := newRes.body
      resHeaders := stripAuthHeadersInProxyMode cfg newRes.headers
      calls := [call] }

/-- JS `parseInt` on the decimal config strings the server feeds it: leading
whitespace skipped, the longest leading digit run parsed; none models NaN. -/
def parseIntJs (s : String) : Option Nat :=
  let t := s.toList.dropWhile (fun c => c = ' ' ∨ c = '\t' ∨ c = '\n' ∨ c = '\r')
  let digits := t.takeWhile Char.isDigit
  if digits = [] then none
  else some (digits.foldl (fun n c => n * 10 + (c.toNat - 48)) 0)

/-- Value of the Strict-Transport-Security header helmet emits from
`hstsSettings` (src lines 201-205): `maxAge` is `parseInt(cdapConfig["hsts.max.age"])`
and the includeSubDomains / preload tokens appear exactly when the
corresponding config values are the string "true". -/
def hstsHeaderValue (cfg : Config) : String :=
  "max-age=" ++
    (match parseIntJs ((cfgGet cfg "hsts.max.age").getD "undefined") with
     | some n => toString n
     | none => "NaN") ++
  (if cfgGet cfg "hsts.include.sub.domains" = some "true" then "; includeSubDomains" else "") ++
  (if cfgGet cfg "hsts.preload" = some "true" then "; preload" else "")

/-- The HSTS header of the helmet middleware (src line 252):
`hsts: cdapConfig["hsts.enabled"] === 'true' && hstsSettings` — helmet emits
the header exactly when the option is the settings object (config value
"true") and omits it entirely when the option is `false`. -/
def hstsHeader (cfg : Config) : Option (String × String) :=
  if cfgGet cfg "hsts.enabled" = some "true" then
    some ("Strict-Transport-Security", hstsHeaderValue cfg)
  else none

/-- The URLs whose scheme://host pairs are whitelisted into the CSP (src lines
206-210): the dashboard proxy base URL when set and truthy (a present empty
string is falsy in JS and is not pushed), followed by the configured market
URLs. -/
def cspBaseUrls (cfg : Config) : List String :=
  (match cfgGet cfg "dashboard.proxy.base.url" with
   | some u => if u = "" then [] else [u]
   | none => []) ++ getMarketUrls cfg

/-- One URL's contribution to the CSP whitelist (src lines 212-213):
`` `${marketUrl.protocol}//${marketUrl.host}` `` — a URL whose parse yields
null protocol/host contributes the literal text "null//null", since JS
interpolates null as "null". -/
def cspContribution (urlString : String) : String :=
  ((urlProtocolHost urlString).1.getD "null") ++ "//" ++
    ((urlProtocolHost urlString).2.getD "null")

/-- The per-URL contributions in order; nothing is filtered out. -/
def cspContributionList (cfg : Config) : List String :=
  (cspBaseUrls cfg).map cspContribution

/-- `cspWhiteListUrls` (src lines 206-214): the contributions joined with a
space. -/
def cspWhiteListUrls (cfg : Config) : String :=
  String.intercalate " " (cspContributionList cfg)

/-- The script-src directive of the helmet CSP (src lines 232-242): the
per-response nonce (quoted), the fixed entries, and the process-lifetime
server nonce (unquoted in the source). -/
def scriptSrcDirective (serverNonce nonce : String) : List String :=
  ["'nonce-" ++ nonce ++ "'",
   "'unsafe-inline'",
   "nonce-" ++ serverNonce,
   "'unsafe-eval'",
   "'strict-dynamic' https: http:",
   "https://tagmanager.google.com",
   "https://www.googletagmanager.com",
   "https://ssl.google-analytics.com",
   "https://www.google-analytics.com"]

/-- The CSP directives of the helmet middleware (src lines 227-251), each as a
directive name with its source list. -/
def cspDirectives (cfg : Config) (serverNonce nonce : String) : List (String × List String) :=
  [("img-src", ["'self' data: " ++ cspWhiteListUrls cfg, "www.googletagmanager.com",
                "https://www.gstatic.com", "https://ssl.gstatic.com",
                "https://www.google-analytics.com"]),
   ("connect-src", ["'self'", "https://www.google-analytics.com", "https://ampcid.google.com"]),
   ("font-src", ["'self'", "'unsafe-inline'", "https://fonts.gstatic.com", "data:"]),
   ("script-src", scriptSrcDirective serverNonce nonce),
   ("base-uri", ["'self'"]),
   ("style-src", ["'self'", "'unsafe-inline'", "https://tagmanager.google.com",
                  "https://fonts.googleapis.com"]),
   ("object-src", ["'none'"]),
   ("worker-src", ["'self' blob:"]),
   ("report-uri", ["https://csp.withgoogle.com/csp/cdap"])]

/-- The serialized Content-Security-Policy header value. -/
def cspHeaderValue (cfg : Config) (serverNonce nonce : String) : String :=
  String.intercalate "; "
    ((cspDirectives cfg serverNonce nonce).map (fun d => d.1 ++ " " ++ String.intercalate " " d.2))

/-- The security headers the (production-only) helmet middleware sets on a
response, given the per-response nonce: the CSP, and the HSTS header exactly
when config enables it. -/
def securityHeaders (cfg : Config) (serverNonce nonce : String) : Headers :=
  ("Content-Security-Policy", cspHeaderValue cfg serverNonce nonce) :: (hstsHeader cfg).toList

/-- The per-response nonce source: `res.locals.nonce = uuidV4()` draws one
fresh value per response; modelled as a stream indexed by the response
number. -/
abbrev NonceGen := Nat → String

/-- A rendered HTML entry template: the template name and the `nonceVal`
value passed to it. -/
structure RenderedPage where
  template : String
  nonceVal : String
deriving DecidableEq

/-- `res.render('cdap', { nonceVal: res.locals.nonce })` (src lines 773-781). -/
def renderCdap (nonce : String) : RenderedPage := ⟨"cdap", nonce⟩

/-- `res.render('hydrator', { nonceVal: res.locals.nonce })` (src lines 763-771). -/
def renderHydrator (nonce : String) : RenderedPage := ⟨"hydrator", nonce⟩

/-- What one catch-all render response carries: the response's security headers
(with the response's nonce inside the CSP) and the rendered page (with the
same nonce as `nonceVal`). -/
structure PageResponse where
  headers : Headers
  cspScriptSrc : List String
  page : RenderedPage
deriving DecidableEq

/-- The production pipeline for the i-th response on a render route: the nonce
middleware assigns `res.locals.nonce`, helmet builds that response's headers
from it, and the catch-all handler renders the template with the same value. -/
def cdapPageResponse (cfg : Config) (serverNonce : String) (gen : NonceGen)
    (i : Nat) : PageResponse :=
  let nonce := gen i
  { headers := securityHeaders cfg serverNonce nonce
    cspScriptSrc := scriptSrcDirective serverNonce nonce
    page := renderCdap nonce }

/-- The same production pipeline for the i-th response on the `/pipelines`
render route (src lines 763-771), rendering the hydrator template with that
response's nonce. -/
def hydratorPageResponse (cfg : Config) (serverNonce : String) (gen : NonceGen)
    (i : Nat) : PageResponse :=
  let nonce := gen i
  { headers := securityHeaders cfg serverNonce nonce
    cspScriptSrc := scriptSrcDirective serverNonce nonce
    page := renderHydrator nonce }

/-- The fixed text of the `/analytics.js` body before the server nonce. -/
def analyticsPre : String :=
  "
        let gaHeaderScript = document.createElement('script');
        gaHeaderScript.setAttribute('nonce', '"

/-- The fixed text of the `/analytics.js` body between the server nonce and
the GTM container id. -/
def analyticsMid : String :=
  "');
        gaHeaderScript.setAttribute('type', 'text/javascript');
        gaHeaderScript.innerHTML = \"(function(w,d,s,l,i)\x7bw[l]=w[l]||[];w[l].push(\x7b'gtm.start':new Date().getTime(),event:'gtm.js'\x7d);var f=d.getElementsByTagName(s)[0],j=d.createElement(s),dl=l!='dataLayer'?'&l='+l:'';j.async=true;j.src='https://www.googletagmanager.com/gtm.js?id='+i+dl;var n=d.querySelector('[nonce]');n&&j.setAttribute('nonce',n.nonce||n.getAttribute('nonce'));f.parentNode.insertBefore(j,f);\x7d)(window,document,'script','dataLayer','"

/-- The fixed text of the `/analytics.js` body after the GTM container id. -/
def analyticsSuf : String :=
  "');\"
        document.head.appendChild(gaHeaderScript);
      "

/-- The `/analytics.js` body (src lines 279-285): the template literal with
the process-lifetime server nonce and the configured GTM id interpolated. -/
def analyticsBody (serverNonce gtmId : String) : String :=
  analyticsPre ++ serverNonce ++ (analyticsMid ++ gtmId ++ analyticsSuf)

/-- The `/analytics.js` handler (src lines 269-289): when `ui.GTM` is set and
truthy the script embedding the server nonce is sent, else a 404. -/
def analyticsHandler (cfg : Config) (serverNonce : String) : Outcome :=
  match cfgGet cfg "ui.GTM" with
  | some gtm =>
    if gtm = "" then { status := 404, body := "Not Found", resHeaders := [], calls := [] }
    else
      { status := 200
        body := analyticsBody serverNonce gtm
        resHeaders := [("Content-Type", "text/javascript"),
                       ("Cache-Control", "no-store, must-revalidate")]
        calls := [] }
  | none => { status := 404, body := "Not Found", resHeaders := [], calls := [] }

/-- Session token issuance failure. -/
inductive TokenError where
  | authUnavailable
deriving DecidableEq

/-- Modelled from the spec: whether the configured authentication mode
requires a bearer credential. `server/token` is not under `src/`; the spec
lists the modes as OFF, BASIC, PROXY, etc. and says issuance "Fails with
AuthUnavailable if no bearer credential is supplied and the configured mode
requires one" — modelled as every mode other than OFF requiring one. -/
def modeRequiresCredential (cfg : Config) : Bool :=
  ((cfgGet cfg "security.authentication.mode").getD "OFF") != "OFF"

/-- Modelled from the spec: `generateToken` of `server/token` is not under
`src/`. Spec §4.1: `issue(bearerCredential, config) -> token`, an opaque value
derived from the caller's bearer credential and a server-held config secret;
fails with AuthUnavailable when no bearer credential is supplied and the
configured mode requires one. -/
def generateToken (cfg : Config) (authToken : String) : Except TokenError String :=
  if authToken = "" && modeRequiresCredential cfg then .error .authUnavailable
  else .ok ("token(" ++ authToken ++ "," ++ (cfgGet cfg "session.secret.key").getD "" ++ ")")

/-- The `GET /sessionToken` handler (src lines 658-662):
`req.headers.authorization || ''` is handed to `generateToken` and the result
sent; an issuance failure propagates instead of a token. -/
def sessionTokenHandler (cfg : Config) (reqHeaders : Headers) : Except TokenError String :=
  let authToken := (hdrGet reqHeaders "authorization").getD ""
  generateToken cfg authToken

/-- The `uiSettings` object shared by reference across requests: the
`ui.externalLinks` slot the `/config.js` handler writes, and the remaining
settings. -/
structure UISettings where
  externalLinks : Option String
  entries : Config
deriving DecidableEq

/-- The mutable state the request handlers close over: the config map, the
shared `uiSettings` object and the shared `uiThemeConfig` object. -/
structure AppState where
  cdapConfig : Config
  uiSettings : UISettings
  uiThemeConfig : Config
deriving DecidableEq

/-- The `GET /config.js` handler's effect and body (src lines 292-341): before
serializing it assigns `uiSettings.ui.externalLinks = cdapConfig.externalLinks`,
mutating the shared object; the serialized body is abbreviated here to a
config-derived fragment (the claims are about the state effect). -/
def configJsHandler (st : AppState) : AppState × String :=
  let st' := { st with
    uiSettings := { st.uiSettings with externalLinks := cfgGet st.cdapConfig "externalLinks" } }
  (st', "window.CDAP_CONFIG = \x7bsecurityMode: " ++
    ((cfgGet st.cdapConfig "security.authentication.mode").getD "undefined") ++ "\x7d;")

/-- Rendering of a theme object, used by the `/ui-theme.js` body. -/
def themeToString (t : Config) : String :=
  String.intercalate "," (t.map (fun p => p.1 ++ ":" ++ p.2))

/-- The `GET /ui-theme.js` body (src lines 357-363): it serializes the shared
`uiThemeConfig` as it stands when the request arrives. -/
def uiThemeJsHandler (st : AppState) : String :=
  "window.CDAP_UI_THEME = " ++ themeToString st.uiThemeConfig ++ ";"

/-- A `POST /updateTheme` request: headers and the `uiThemePath` body field. -/
structure UpdateThemeReq where
  headers : Headers
  uiThemePath : Option String
deriving DecidableEq

/-- The `POST /updateTheme` handler (src lines 737-760): session gate, then
`uiThemeConfig = uiThemeWrapper.extractUITheme(cdapConfig, uiThemePath)` —
on success the shared theme object is replaced; parse failures are caught and
answered with a 500 without touching the state. `extractUITheme` lives in
`server/uiThemeWrapper` (not under `src/`) and is taken as a parameter. -/
def updateThemeHandler (validateToken : ValidateTokenFn)
    (extractUITheme : Config → String → Except Unit Config)
    (st : AppState) (req : UpdateThemeReq) : AppState × Outcome :=
  if sessionGatePasses validateToken st.cdapConfig req.headers = false then
    (st, { status := 500, body := "Unable to validate session", resHeaders := [], calls := [] })
  else if (req.uiThemePath.getD "") = "" then
    (st, { status := 500, body := "UnKnown theme file. Please make sure the path is valid",
           resHeaders := [], calls := [] })
  else
    match extractUITheme st.cdapConfig (req.uiThemePath.getD "") with
    | .error _ =>
      (st, { status := 500,
             body := "Error parsing theme file. Please make sure the path and the file contents are valid",
             resHeaders := [], calls := [] })
    | .ok t =>
      ({ st with uiThemeConfig := t },
       { status := 200, body := "Theme updated", resHeaders := [], calls := [] })

/-- What the router produces for a request: a served static file, the plain
404 of a mount's fallthrough handler (`finalhandler(req, res)(false)`), or a
rendered SPA entry page. -/
inductive RouteResult where
  | staticFile (path : String)
  | plain404
  | page (p : RenderedPage)
deriving DecidableEq

/-- The static asset mounts (src lines 584-615), in registration order. -/
def assetMounts : List String :=
  ["/assets", "/cdap_assets", "/dll_assets", "/login_assets", "/common_assets"]

/-- String prefix test over the character lists (kernel-reducible). -/
def strIsPrefix (p s : String) : Bool :=
  p.toList.isPrefixOf s.toList

/-- Express mount matching: a request path belongs to a mount when it equals
the mount path or continues it with a slash. -/
def underMount (mount reqPath : String) : Bool :=
  reqPath == mount || strIsPrefix (mount ++ "/") reqPath

/-- Whether the request path falls under one of the static asset mounts. -/
def matchesAssetMount (reqPath : String) : Bool :=
  assetMounts.any (fun m => underMount m reqPath)

/-- The routing of a request among the static mounts and the catch-all render
routes (src lines 584-615 and 763-781), given the set of files that exist
under the mounts: under a mount, `express.static` serves an existing file and
otherwise falls through to the mount's second handler, which answers a plain
404; only paths outside every mount can reach the catch-all SPA routes. -/
def handleShellRequest (files : List String) (nonce : String) (reqPath : String) : RouteResult :=
  if matchesAssetMount reqPath then
    if files.contains reqPath then .staticFile reqPath else .plain404
  else if reqPath == "/pipelines" || strIsPrefix "/pipelines/" reqPath then
    .page (renderHydrator nonce)
  else if reqPath == "/" || reqPath == "/cdap" || strIsPrefix "/cdap/" reqPath then
    .page (renderCdap nonce)
  else .plain404

/-- A validator that rejects every session token. -/
def vNever : ValidateTokenFn := fun _ _ _ => false

/-- A validator that accepts every session token. -/
def vAlways : ValidateTokenFn := fun _ _ _ => true

/-- A network oracle whose upstream responses carry an Authorization header. -/
def netConst : Network :=
  fun _ => ⟨200, [("Authorization", "Bearer leaked"), ("content-length", "7")], "payload"⟩

/-- A config in PROXY authentication mode with an identity header configured. -/
def cfgProxyEx : Config :=
  [("security.authentication.mode", "PROXY"),
   ("security.authentication.proxy.user.identity.header", "X-WEBAUTH-USER"),
   ("market.base.urls", "https://hub.example")]

/-- A config whose hub allow-list holds one well-formed host. -/
def cfgMarketEx : Config := [("market.base.urls", "https://hub.example")]

/-- A config enabling HSTS with max age 3600 and nothing else. -/
def cfgHstsOn : Config := [("hsts.enabled", "true"), ("hsts.max.age", "3600")]

/-- A config enabling HSTS with max age 3600, includeSubDomains and preload. -/
def cfgHstsFull : Config :=
  [("hsts.enabled", "true"), ("hsts.max.age", "3600"),
   ("hsts.include.sub.domains", "true"), ("hsts.preload", "true")]

/-- A config disabling HSTS. -/
def cfgHstsOff : Config := [("hsts.enabled", "false")]

/-- A config whose hub allow-list entry is not a parseable URL. -/
def cfgBadHubUrl : Config := [("market.base.urls", "not a url")]

/-- A config with a Google Tag Manager container id. -/
def cfgGtmEx : Config := [("ui.GTM", "GTM-XXXX")]

/-- A relay-through request with a non-allow-listed source and no session token. -/
def forwardReqNoToken : ForwardMarketReq :=
  ⟨some "https://evil.example/x", some "/v3/namespaces/default/apps", none, none, []⟩

/-- A relay-through request with a non-allow-listed source and a session token header. -/
def forwardReqTokBad : ForwardMarketReq :=
  ⟨some "https://evil.example/x", some "/v3/namespaces/default/apps", none, none,
   [("session-token", "tok")]⟩

/-- A namespace upload request with no session token header. -/
def uploadReqNoToken : NamespacesUploadReq :=
  ⟨"default", "apps", [("content-type", "application/octet-stream")], "JARBYTES"⟩

/-- A nonce stream with pairwise distinct values. -/
def genEx : NonceGen := fun n => "nonce" ++ toString n

/-- A shared app state: config with external links, untouched settings, a blue theme. -/
def stateEx : AppState :=
  ⟨[("externalLinks", "https://docs.example"),
    ("security.authentication.mode", "BASIC")],
   ⟨none, []⟩,
   [("brand-primary-color", "blue")]⟩

/-- A theme extractor that parses every path to a green theme. -/
def extractEx : Config → String → Except Unit Config :=
  fun _ _ => .ok [("brand-primary-color", "green")]

/-- An update-theme request with a session token and a theme path. -/
def themeReqTok : UpdateThemeReq := ⟨[("session-token", "tok")], some "/tmp/theme.json"⟩

/-- Reading the empty header object yields nothing. -/
theorem hdrGet_nil (k : String) : hdrGet [] k = none := rfl

end CdapUi

namespace CdapUi

/-- Claim C2 counterexample: a relay-through request whose source is not
allow-listed but which lacks a session token is answered 500 (the session
gate runs first), not a 403-class result — though still with zero outbound
calls. -/
theorem forwardMarketGateYields500NotForbidden :
    (forwardMarketToCdapHandler vAlways netConst cfgMarketEx forwardReqNoToken).status = 500 ∧
    (forwardMarketToCdapHandler vAlways netConst cfgMarketEx forwardReqNoToken).status ≠ 403 ∧
    (forwardMarketToCdapHandler vAlways netConst cfgMarketEx forwardReqNoToken).calls = [] ∧
    isVerifiedMarketHost cfgMarketEx (some "https://evil.example/x") = false := by
  refine ⟨rfl, by decide, rfl, by decide⟩

/-- Claim C2 (amended): for a source URL that is not allow-listed, neither hub
forwarder entry point issues any outbound network call; `/market` answers 403
unconditionally, and `/forwardMarketToCdap` answers 403 whenever its session
gate passes (a failed gate answers 500 before the allow-list is consulted,
still with zero outbound calls). -/
theorem hubForwarderRejectsUnlistedHosts (cfg : Config) (v : ValidateTokenFn)
    (net : Network) (freq : ForwardMarketReq)
    (hbad : isVerifiedMarketHost cfg freq.source = false) :
    (marketHandler net cfg freq.source).status = 403 ∧
    (marketHandler net cfg freq.source).body = "invalid market request" ∧
    (marketHandler net cfg freq.source).calls = [] ∧
    (forwardMarketToCdapHandler v net cfg freq).calls = [] ∧
    (sessionGatePasses v cfg freq.headers = true →
      (forwardMarketToCdapHandler v net cfg freq).status = 403 ∧
      (forwardMarketToCdapHandler v net cfg freq).body = "Invalid source link") := by
  unfold marketHandler forwardMarketToCdapHandler
  rw [if_pos hbad]
  cases hg : sessionGatePasses v cfg freq.headers with
  | false => simp [hbad]
  | true => simp [hbad]

/-- Claim C2 witness: the amended statement at a config allow-listing
`https://hub.example`, an accepting validator, and a request for
`https://evil.example/x` carrying a session token. -/
theorem hubForwarderRejectsUnlistedHostsWitness :
    (marketHandler netConst cfgMarketEx forwardReqTokBad.source).status = 403 ∧
    (forwardMarketToCdapHandler vAlways netConst cfgMarketEx forwardReqTokBad).calls = [] ∧
    (forwardMarketToCdapHandler vAlways netConst cfgMarketEx forwardReqTokBad).status = 403 := by
  have h := hubForwarderRejectsUnlistedHosts cfgMarketEx vAlways netConst forwardReqTokBad
    (by decide)
  exact ⟨h.1, h.2.2.2.1, (h.2.2.2.2 (by decide)).1⟩

/-- Claim C3: when the session gate fails — the `session-token` header missing
or the token not validating — both token-gated write endpoints answer the
fixed 500 "Unable to validate session" with no outbound network call and no
headers set, and the outcome is the identical record in both the missing and
the invalid case. -/
theorem sessionGateShortCircuitsWriteEndpoints (cfg : Config) (v : ValidateTokenFn)
    (net : Network) (ureq : NamespacesUploadReq) (freq : ForwardMarketReq)
    (hu : sessionGatePasses v cfg ureq.headers = false)
    (hf : sessionGatePasses v cfg freq.headers = false) :
    namespacesUploadHandler v net cfg ureq =
      { status := 500, body := "Unable to validate session", resHeaders := [], calls := [] } ∧
    forwardMarketToCdapHandler v net cfg freq =
      { status := 500, body := "Unable to validate session", resHeaders := [], calls := [] } ∧
    (∀ hs : Headers, hdrGet hs "session-token" = none →
      sessionGatePasses v cfg hs = false) ∧
    (∀ (hs : Headers) (st : String), hdrGet hs "session-token" = some st →
      v st cfg (hdrGet hs "authorization") = false →
      sessionGatePasses v cfg hs = false) := by
  refine ⟨?_, ?_, ?_, ?_⟩
  · unfold namespacesUploadHandler; rw [hu]; rfl
  · unfold forwardMarketToCdapHandler; rw [hf]; rfl
  · intro hs hmiss
    unfold sessionGatePasses
    rw [hmiss]
  · intro hs st hsome hv
    unfold sessionGatePasses
    rw [hsome]
    simp [hv]

/-- Claim C3 witness: the statement at a rejecting validator, a tokenless
upload request and a tokenless relay-through request. -/
theorem sessionGateShortCircuitsWriteEndpointsWitness :
    namespacesUploadHandler vNever netConst cfgMarketEx uploadReqNoToken =
      { status := 500, body := "Unable to validate session", resHeaders := [], calls := [] } ∧
    forwardMarketToCdapHandler vNever netConst cfgMarketEx forwardReqNoToken =
      { status := 500, body := "Unable to validate session", resHeaders := [], calls := [] } := by
  have h := sessionGateShortCircuitsWriteEndpoints cfgMarketEx vNever netConst
    uploadReqNoToken forwardReqNoToken (by decide) (by decide)
  exact ⟨h.1, h.2.1⟩

/-- Claim C4: the Strict-Transport-Security header produced by the
security-header construction is present if and only if the config's
`hsts.enabled` is the string "true"; with max age 3600 its value is
`max-age=3600`, includeSubDomains and preload appear exactly when configured,
and with `hsts.enabled` "false" no HSTS header exists at all. -/
theorem hstsHeaderPresentIffConfigEnabled (serverNonce nonce : String) :
    (∀ cfg : Config,
      (hdrGet (securityHeaders cfg serverNonce nonce) "Strict-Transport-Security").isSome
        ↔ cfgGet cfg "hsts.enabled" = some "true") ∧
    hdrGet (securityHeaders cfgHstsOn serverNonce nonce) "Strict-Transport-Security"
      = some "max-age=3600" ∧
    hdrGet (securityHeaders cfgHstsFull serverNonce nonce) "Strict-Transport-Security"
      = some "max-age=3600; includeSubDomains; preload" ∧
    hdrGet (securityHeaders cfgHstsOff serverNonce nonce) "Strict-Transport-Security"
      = none := by
  refine ⟨?_, rfl, rfl, rfl⟩
  intro cfg
  unfold securityHeaders hstsHeader
  by_cases h : cfgGet cfg "hsts.enabled" = some "true"
  · simp [h, hdrGet, List.find?_cons]
  · simp [h, hdrGet, List.find?_cons]

/-- Claim C5: for two responses on the same render route whose nonce draws
differ (uuidV4 freshness), the rendered pages carry different nonces — on the
cdap route and on the hydrator (`/pipelines`) route alike — and within each
response, on either route, the template's `nonceVal` equals the response's
nonce and appears, quoted, in that response's CSP script-src directive. -/
theorem perResponseNonceFreshAndConsistent (cfg : Config) (serverNonce : String)
    (gen : NonceGen) (i j : Nat) (hfresh : gen i ≠ gen j) :
    (cdapPageResponse cfg serverNonce gen i).page.nonceVal ≠
      (cdapPageResponse cfg serverNonce gen j).page.nonceVal ∧
    (hydratorPageResponse cfg serverNonce gen i).page.nonceVal ≠
      (hydratorPageResponse cfg serverNonce gen j).page.nonceVal ∧
    (cdapPageResponse cfg serverNonce gen i).page.nonceVal = gen i ∧
    (hydratorPageResponse cfg serverNonce gen i).page.nonceVal = gen i ∧
    ("'nonce-" ++ (cdapPageResponse cfg serverNonce gen i).page.nonceVal ++ "'") ∈
      (cdapPageResponse cfg serverNonce gen i).cspScriptSrc ∧
    ("'nonce-" ++ (cdapPageResponse cfg serverNonce gen j).page.nonceVal ++ "'") ∈
      (cdapPageResponse cfg serverNonce gen j).cspScriptSrc ∧
    ("'nonce-" ++ (hydratorPageResponse cfg serverNonce gen i).page.nonceVal ++ "'") ∈
      (hydratorPageResponse cfg serverNonce gen i).cspScriptSrc ∧
    ("'nonce-" ++ (hydratorPageResponse cfg serverNonce gen j).page.nonceVal ++ "'") ∈
      (hydratorPageResponse cfg serverNonce gen j).cspScriptSrc := by
  refine ⟨hfresh, hfresh, rfl, rfl, ?_, ?_, ?_, ?_⟩
  · simp [cdapPageResponse, renderCdap, scriptSrcDirective]
  · simp [cdapPageResponse, renderCdap, scriptSrcDirective]
  · simp [hydratorPageResponse, renderHydrator, scriptSrcDirective]
  · simp [hydratorPageResponse, renderHydrator, scriptSrcDirective]

/-- Claim C5 witness: the statement at the distinct nonce stream `genEx` and
responses 0 and 1, on both render routes. -/
theorem perResponseNonceFreshAndConsistentWitness :
    (cdapPageResponse cfgMarketEx "srv" genEx 0).page.nonceVal ≠
      (cdapPageResponse cfgMarketEx "srv" genEx 1).page.nonceVal ∧
    (hydratorPageResponse cfgMarketEx "srv" genEx 0).page.nonceVal ≠
      (hydratorPageResponse cfgMarketEx "srv" genEx 1).page.nonceVal ∧
    ("'nonce-" ++ (cdapPageResponse cfgMarketEx "srv" genEx 0).page.nonceVal ++ "'") ∈
      (cdapPageResponse cfgMarketEx "srv" genEx 0).cspScriptSrc ∧
    ("'nonce-" ++ (hydratorPageResponse cfgMarketEx "srv" genEx 0).page.nonceVal ++ "'") ∈
      (hydratorPageResponse cfgMarketEx "srv" genEx 0).cspScriptSrc := by
  have h := perResponseNonceFreshAndConsistent cfgMarketEx "srv" genEx 0 1 (by decide)
  exact ⟨h.1, h.2.1, h.2.2.2.2.1, h.2.2.2.2.2.2.1⟩

/-- Claim C6 counterexample: with a hub allow-list entry that fails to parse,
the CSP whitelist is the literal entry `null//null` — the unparseable URL is
not dropped and its contribution is nonempty. -/
theorem unparseableHubUrlContributesNullEntry :
    cspWhiteListUrls cfgBadHubUrl = "null//null" ∧
    cspContributionList cfgBadHubUrl = ["null//null"] ∧
    urlProtocolHost "not a url" = (none, none) := by
  exact ⟨rfl, rfl, rfl⟩

/-- Claim C6 (amended): a configured hub-host URL that fails to parse does not
abort security-header construction (the CSP whitelist is still produced and
the contribution list keeps one entry per configured URL), but the entry is
not dropped: it contributes the literal text `null//null` (JS interpolation of
the null protocol and host), and nothing is logged. -/
theorem unparseableHubUrlHandling (cfg : Config) (u : String)
    (hu : u ∈ cspBaseUrls cfg) (hbad : urlProtocolHost u = (none, none)) :
    cspContribution u = "null//null" ∧
    "null//null" ∈ cspContributionList cfg ∧
    (cspContributionList cfg).length = (cspBaseUrls cfg).length := by
  have hc : cspContribution u = "null//null" := by
    unfold cspContribution
    rw [hbad]
    rfl
  refine ⟨hc, ?_, by simp [cspContributionList]⟩
  have := List.mem_map_of_mem cspContribution hu
  rwa [hc] at this

/-- Claim C6 witness: the amended statement at the config whose allow-list
entry is `not a url`. -/
theorem unparseableHubUrlHandlingWitness :
    cspContribution "not a url" = "null//null" ∧
    "null//null" ∈ cspContributionList cfgBadHubUrl := by
  have h := unparseableHubUrlHandling cfgBadHubUrl "not a url" (by decide) rfl
  exact ⟨h.1, h.2.1⟩

/-- Claim C7: when no authorization header is supplied and the configured
authentication mode requires a bearer credential, session-token issuance
fails with AuthUnavailable — the `/sessionToken` endpoint yields no token. -/
theorem sessionTokenIssuanceRequiresCredential (cfg : Config) (reqHeaders : Headers)
    (hnone : hdrGet reqHeaders "authorization" = none)
    (hreq : modeRequiresCredential cfg = true) :
    sessionTokenHandler cfg reqHeaders = .error .authUnavailable := by
  unfold sessionTokenHandler generateToken
  rw [hnone]
  simp [hreq]

/-- Claim C7 witness: the statement at the PROXY-mode config and a request
with no headers. -/
theorem sessionTokenIssuanceRequiresCredentialWitness :
    sessionTokenHandler cfgProxyEx [] = .error .authUnavailable :=
  sessionTokenIssuanceRequiresCredential cfgProxyEx [] rfl (by decide)

/-- Claim C8 counterexample: handlers do mutate cross-request shared state —
a valid `/updateTheme` request replaces the shared `uiThemeConfig`, and a
`/config.js` request writes into the shared `uiSettings`. -/
theorem updateThemeMutatesSharedState :
    (updateThemeHandler vAlways extractEx stateEx themeReqTok).1.uiThemeConfig ≠
      stateEx.uiThemeConfig ∧
    (configJsHandler stateEx).1.uiSettings ≠ stateEx.uiSettings := by
  refine ⟨by decide, by decide⟩

/-- Claim C8 (amended): request handlers never mutate the config map, but two
shared values are mutated: `/config.js` writes `cdapConfig.externalLinks` into
the shared `uiSettings`, and `/updateTheme` (valid session token, parseable
theme path) replaces the shared `uiThemeConfig` — the change visible to a
later `/ui-theme.js` response. -/
theorem handlersSharedStateEffects (v : ValidateTokenFn)
    (e : Config → String → Except Unit Config) (st : AppState)
    (req : UpdateThemeReq) (t : Config) (p : String)
    (hgate : sessionGatePasses v st.cdapConfig req.headers = true)
    (hpath : req.uiThemePath = some p) (hp : p ≠ "")
    (hok : e st.cdapConfig p = .ok t) :
    (updateThemeHandler v e st req).1.cdapConfig = st.cdapConfig ∧
    (configJsHandler st).1.cdapConfig = st.cdapConfig ∧
    (configJsHandler st).1.uiSettings.externalLinks = cfgGet st.cdapConfig "externalLinks" ∧
    (updateThemeHandler v e st req).1.uiThemeConfig = t ∧
    uiThemeJsHandler (updateThemeHandler v e st req).1 =
      "window.CDAP_UI_THEME = " ++ themeToString t ++ ";" := by
  have hres : (updateThemeHandler v e st req).1 = { st with uiThemeConfig := t } := by
    unfold updateThemeHandler
    rw [hgate, hpath]
    simp [hp, hok]
  refine ⟨?_, rfl, rfl, ?_, ?_⟩
  · rw [hres]
  · rw [hres]
  · rw [hres]; rfl

/-- Claim C8 witness: the amended statement at the accepting validator, the
green-theme extractor and the concrete state and request. -/
theorem handlersSharedStateEffectsWitness :
    (updateThemeHandler vAlways extractEx stateEx themeReqTok).1.cdapConfig =
      stateEx.cdapConfig ∧
    (updateThemeHandler vAlways extractEx stateEx themeReqTok).1.uiThemeConfig =
      [("brand-primary-color", "green")] := by
  have h := handlersSharedStateEffects vAlways extractEx stateEx themeReqTok
    [("brand-primary-color", "green")] "/tmp/theme.json" (by decide) rfl (by decide) rfl
  exact ⟨h.1, h.2.2.2.1⟩

/-- Claim C9: in production every response's CSP script-src carries, besides
the per-response nonce, the fixed entry built from the process-lifetime server
nonce — the same entry in any two responses — and when a GTM container is
configured the `/analytics.js` body embeds that same server nonce. -/
theorem serverNonceFixedAcrossResponses (cfg : Config) (serverNonce : String)
    (gen : NonceGen) (i j : Nat) (gtm : String)
    (hg : cfgGet cfg "ui.GTM" = some gtm) (hne : gtm ≠ "") :
    ("nonce-" ++ serverNonce) ∈ (cdapPageResponse cfg serverNonce gen i).cspScriptSrc ∧
    ("nonce-" ++ serverNonce) ∈ (cdapPageResponse cfg serverNonce gen j).cspScriptSrc ∧
    (analyticsHandler cfg serverNonce).status = 200 ∧
    (∃ pre post, (analyticsHandler cfg serverNonce).body = pre ++ serverNonce ++ post) := by
  refine ⟨?_, ?_, ?_, ?_⟩
  · simp [cdapPageResponse, scriptSrcDirective]
  · simp [cdapPageResponse, scriptSrcDirective]
  · unfold analyticsHandler
    rw [hg]
    simp [hne]
  · unfold analyticsHandler
    rw [hg]
    refine ⟨analyticsPre, analyticsMid ++ gtm ++ analyticsSuf, ?_⟩
    simp [hne, analyticsBody]

/-- Claim C9 witness: the statement at the GTM-configured example config,
nonce stream `genEx` and responses 0 and 1. -/
theorem serverNonceFixedAcrossResponsesWitness :
    ("nonce-" ++ "srv") ∈ (cdapPageResponse cfgGtmEx "srv" genEx 0).cspScriptSrc ∧
    (analyticsHandler cfgGtmEx "srv").status = 200 := by
  have h := serverNonceFixedAcrossResponses cfgGtmEx "srv" genEx 0 1 "GTM-XXXX" rfl
    (by decide)
  exact ⟨h.1, h.2.2.1⟩

/-- Claim C10: a request path under a static asset mount that matches no
existing file is answered by the mount's fallthrough handler with a plain 404
and never reaches the SPA shell render routes. -/
theorem staticMountMissingFileGives404 (files : List String) (nonce reqPath : String)
    (hm : matchesAssetMount reqPath = true)
    (hmiss : files.contains reqPath = false) :
    handleShellRequest files nonce reqPath = .plain404 ∧
    ∀ pg : RenderedPage, handleShellRequest files nonce reqPath ≠ .page pg := by
  have h : handleShellRequest files nonce reqPath = .plain404 := by
    unfold handleShellRequest
    rw [hm]
    simp only [if_pos]
    rw [hmiss]
    rfl
  exact ⟨h, fun pg hpg => by rw [h] at hpg; exact RouteResult.noConfusion hpg⟩

/-- Claim C10 witness: the statement at a one-file asset set and a missing
asset path under the `/assets` mount. -/
theorem staticMountMissingFileGives404Witness :
    handleShellRequest ["/assets/app.js"] "n0" "/assets/missing.js" = .plain404 := by
  have h := staticMountMissingFileGives404 ["/assets/app.js"] "n0" "/assets/missing.js"
    (by decide) (by decide)
  exact h.1

end CdapUi
